import Mathlib

/-!
Verification of the SQL query guard and schema introspection tools of the
cloudflare-agent repository (src/tools.ts).

A row returned by the storage engine is modelled as an association list from
column name to value.  The external SQL execution capability
(`storage.exec(q).toArray()`) is modelled as a function
`String → Except String (List Row)`: `Except.error msg` models the capability
raising with message `msg`, `Except.ok rows` models a successful
materialisation.  Each tool returns, besides its result, the list of query
texts it handed to the execution capability, so that "the capability is never
invoked" is the trace being empty.

The JavaScript string methods used by the source (`trim`, `toLowerCase`,
`startsWith`, `includes`) are modelled by structurally recursive functions on
the underlying character lists, so that every definition evaluates inside the
kernel.
-/

/-- A database row: a mapping from column name to value. -/
abbrev Row := List (String × String)

/-- JavaScript property access `row.k`: `none` models `undefined`. -/
def rowGet (r : Row) (k : String) : Option String :=
  (r.find? (fun p => p.1 == k)).map (fun p => p.2)

/-- JavaScript `s.toLowerCase()` (on the ASCII range relevant here). -/
def jsToLower (s : String) : String :=
  String.mk (s.data.map Char.toLower)

/-- JavaScript `s.trim()`: strip whitespace from both ends. -/
def jsTrim (s : String) : String :=
  String.mk (((s.data.dropWhile Char.isWhitespace).reverse.dropWhile
    Char.isWhitespace).reverse)

/-- JavaScript `s.startsWith(pre)`. -/
def jsStartsWith (s pre : String) : Bool :=
  pre.data.isPrefixOf s.data

/-- `sub.isPrefixOf s || ...` scan over every suffix of `s`: the substring
search behind JavaScript `String.prototype.includes`. -/
def listContainsSub (sub : List Char) : List Char → Bool
  | [] => sub.isEmpty
  | c :: tl => sub.isPrefixOf (c :: tl) || listContainsSub sub tl

/-- JavaScript `s.includes(sub)`. -/
def jsIncludes (s sub : String) : Bool :=
  listContainsSub sub.data s.data

/-- A tool's return value: either a plain string or `JSON.stringify` of a
structured object `v`. -/
inductive ToolResult (α : Type) where
  | text (s : String)
  | json (v : α)
deriving DecidableEq

/-- The object serialised by `executeSQLQuery` on success.  The `message`
field is present (`some`) exactly in the zero-row branch of the source. -/
structure QueryResultObj where
  rowCount : Nat
  rows : List Row
  query : String
  message : Option String
deriving DecidableEq

/-- The rejection message of the SELECT-only guard (tools.ts line 182). -/
def rejectionMessage : String :=
  "Error: Only SELECT queries are allowed for security reasons. Please start your query with SELECT."

/-- The informational message of the zero-row branch (tools.ts line 204). -/
def noResultsMessage : String :=
  "Query executed successfully. No results returned."

/-- JavaScript `limit || d` where `limit` may be absent (`undefined`) or a
number: `0` is falsy, so both `none` and `some 0` yield the default. -/
def jsOr (limit : Option Int) (d : Int) : Int :=
  match limit with
  | none => d
  | some l => if l = 0 then d else l

/-- `Math.min(limit || 100, 500)` — tools.ts line 188. -/
def safeLimit (limit : Option Int) : Int :=
  min (jsOr limit 100) 500

/-- The final query text handed to the execution capability — tools.ts
lines 191-193: if the trimmed, lowercased text contains the substring
`limit`, the original text is passed unmodified; otherwise
`" LIMIT {safeLimit}"` is appended to the original text. -/
def limitedQueryOf (query : String) (limit : Option Int) : String :=
  if jsIncludes (jsToLower (jsTrim query)) "limit" then query
  else query ++ " LIMIT " ++ toString (safeLimit limit)

/-- The `executeSQLQuery` tool, tools.ts lines 175-219.  Returns the tool
result together with the list of queries handed to the execution
capability. -/
def executeSQLQuery (execSQL : String → Except String (List Row))
    (query : String) (limit : Option Int) :
    ToolResult QueryResultObj × List String :=
  let normalizedQuery := jsToLower (jsTrim query)
  if !(jsStartsWith normalizedQuery "select") then
    (ToolResult.text rejectionMessage, [])
  else
    let limitedQuery := limitedQueryOf query limit
    match execSQL limitedQuery with
    | Except.error msg =>
        (ToolResult.text ("SQL Error: " ++ msg), [limitedQuery])
    | Except.ok rows =>
        if rows.length = 0 then
          (ToolResult.json
            { rowCount := 0
              rows := []
              query := limitedQuery
              message := some noResultsMessage }, [limitedQuery])
        else
          (ToolResult.json
            { rowCount := rows.length
              rows := rows
              query := limitedQuery
              message := none }, [limitedQuery])

/-- One entry of the reshaped schema: `{table: row.name, createStatement:
row.sql}`; `none` models a missing column (`undefined`). -/
structure SchemaEntry where
  table : Option String
  createStatement : Option String
deriving DecidableEq

/-- The object serialised by `getDatabaseSchema` on success. -/
structure SchemaObj where
  database : String
  tableCount : Nat
  tables : List SchemaEntry
deriving DecidableEq

/-- The fixed introspection query of `getDatabaseSchema` (tools.ts
line 130). -/
def schemaQuery : String :=
  "SELECT name, sql FROM sqlite_master WHERE type='table' ORDER BY name"

/-- Message returned when the introspection query yields no rows. -/
def noTablesMessage : String := "No tables found in database."

/-- The `getDatabaseSchema` tool, tools.ts lines 122-153.  Returns the tool
result together with the list of queries handed to the execution
capability. -/
def getDatabaseSchema (execSQL : String → Except String (List Row)) :
    ToolResult SchemaObj × List String :=
  match execSQL schemaQuery with
  | Except.error msg =>
      (ToolResult.text ("Error getting schema: " ++ msg), [schemaQuery])
  | Except.ok tables =>
      if tables.length = 0 then
        (ToolResult.text noTablesMessage, [schemaQuery])
      else
        (ToolResult.json
          { database := "SQLite (Cloudflare Durable Object)"
            tableCount := tables.length
            tables := tables.map (fun t =>
              { table := rowGet t "name"
                createStatement := rowGet t "sql" }) }, [schemaQuery])

/-- A sample execution capability that succeeds with no rows. -/
def execEmpty : String → Except String (List Row) := fun _ => Except.ok []

/-- A sample execution capability that succeeds with one row. -/
def execOneRow : String → Except String (List Row) :=
  fun _ => Except.ok [[("name", "contacts"), ("sql", "CREATE TABLE contacts (id INTEGER)")]]

/-- A sample execution capability that raises. -/
def execRaise : String → Except String (List Row) :=
  fun _ => Except.error "near FROM: syntax error"

example : safeLimit (some 700) = 500 := by decide

/-- Auxiliary: `l.isPrefixOf l` always holds for character lists. -/
theorem isPrefixOf_self (l : List Char) : l.isPrefixOf l = true := by
  induction l with
  | nil => rfl
  | cons c tl ih => simp [List.isPrefixOf, ih]

/-- Auxiliary: the substring scan finds `sub` at the end of `pre ++ sub`. -/
theorem listContainsSub_append_self (sub pre : List Char) :
    listContainsSub sub (pre ++ sub) = true := by
  induction pre with
  | nil =>
      cases sub with
      | nil => rfl
      | cons c tl => simp [listContainsSub, isPrefixOf_self]
  | cons c tl ih => simp [listContainsSub, ih]

/-- Auxiliary: `"SQL Error: " ++ msg` begins with `"SQL Error:"`. -/
theorem sqlError_startsWith (msg : String) :
    jsStartsWith ("SQL Error: " ++ msg) "SQL Error:" = true := by
  unfold jsStartsWith
  rw [List.isPrefixOf_iff_prefix]
  have h : ("SQL Error: " ++ msg).data = "SQL Error:".data ++ (' ' :: msg.data) := by
    have h0 : ("SQL Error: " : String) = "SQL Error:" ++ " " := by decide
    rw [String.data_append, h0, String.data_append, List.append_assoc]
    rfl
  rw [h]
  exact List.prefix_append _ _

/-- Auxiliary: `"SQL Error: " ++ msg` contains the underlying message. -/
theorem sqlError_includes (msg : String) :
    jsIncludes ("SQL Error: " ++ msg) msg = true := by
  unfold jsIncludes
  rw [String.data_append]
  exact listContainsSub_append_self _ _

/-- C1: for every input string whose trimmed, lowercased form does not start
with `select`, `executeSQLQuery` returns the rejection message stating only
SELECT queries are permitted, and the execution capability is never invoked
(the trace of executed queries is empty). -/
theorem C1_reject_non_select (execSQL : String → Except String (List Row))
    (query : String) (limit : Option Int)
    (h : jsStartsWith (jsToLower (jsTrim query)) "select" = false) :
    executeSQLQuery execSQL query limit = (ToolResult.text rejectionMessage, []) := by
  unfold executeSQLQuery
  simp [h]

/-- Witness for C1 at the spec's scenario input. -/
theorem C1_witness :
    jsStartsWith (jsToLower (jsTrim "DROP TABLE contacts")) "select" = false ∧
    executeSQLQuery execEmpty "DROP TABLE contacts" none
      = (ToolResult.text rejectionMessage, []) :=
  ⟨by decide, C1_reject_non_select execEmpty "DROP TABLE contacts" none (by decide)⟩

/-- C2 counterexample: the claim fails on the code.  For the explicitly
provided limit `L = 0`, the effective limit is `100`, not `min 0 500 = 0`
(JavaScript `limit || 100` treats `0` as falsy); and for `L = -5` the
effective limit is `-5`, outside `[0, 500]`. -/
theorem C2_counterexample :
    safeLimit (some 0) ≠ min (0 : Int) 500 ∧
    ¬ ((0 : Int) ≤ safeLimit (some (-5))) := by decide

/-- C2 (amended): for every explicitly provided limit `L`, the effective
limit equals `min L 500` when `L ≠ 0` and `100` when `L = 0`; it lies in the
inclusive range `[0, 500]` whenever `L ≥ 0`. -/
theorem C2_effective_limit (L : Int) :
    safeLimit (some L) = (if L = 0 then 100 else min L 500) ∧
    (0 ≤ L → 0 ≤ safeLimit (some L) ∧ safeLimit (some L) ≤ 500) := by
  unfold safeLimit jsOr
  by_cases h : L = 0
  · simp [h, min_def]
  · simp only [h, if_false, min_def]
    constructor
    · trivial
    · intro h2
      split <;> omega

/-- Witness for C2 at the concrete limit 7. -/
theorem C2_witness :
    safeLimit (some 7) = (if (7 : Int) = 0 then 100 else min 7 500) ∧
    (0 ≤ safeLimit (some 7) ∧ safeLimit (some 7) ≤ 500) :=
  ⟨(C2_effective_limit 7).1, (C2_effective_limit 7).2 (by decide)⟩

/-- C3: for every accepted query whose trimmed, lowercased text contains the
substring `limit` anywhere, `executeSQLQuery` hands exactly the original text
to execution, unmodified. -/
theorem C3_passthrough (execSQL : String → Except String (List Row))
    (query : String) (limit : Option Int)
    (hsel : jsStartsWith (jsToLower (jsTrim query)) "select" = true)
    (hlim : jsIncludes (jsToLower (jsTrim query)) "limit" = true) :
    (executeSQLQuery execSQL query limit).2 = [query] := by
  unfold executeSQLQuery limitedQueryOf
  simp [hsel, hlim]
  cases execSQL query with
  | error msg => rfl
  | ok rows => cases rows <;> rfl

/-- Witness for C3 at the spec's scenario input. -/
theorem C3_witness :
    jsStartsWith (jsToLower (jsTrim "select * from contacts limit 10")) "select" = true ∧
    jsIncludes (jsToLower (jsTrim "select * from contacts limit 10")) "limit" = true ∧
    (executeSQLQuery execOneRow "select * from contacts limit 10" (some 10)).2
      = ["select * from contacts limit 10"] :=
  ⟨by decide, by decide,
    C3_passthrough execOneRow "select * from contacts limit 10" (some 10)
      (by decide) (by decide)⟩

/-- C4: for every accepted query with no explicit limit whose trimmed,
lowercased text lacks the substring `limit`, the executed text is the
original text with `" LIMIT 100"` appended. -/
theorem C4_default_injection (execSQL : String → Except String (List Row))
    (query : String)
    (hsel : jsStartsWith (jsToLower (jsTrim query)) "select" = true)
    (hlim : jsIncludes (jsToLower (jsTrim query)) "limit" = false) :
    (executeSQLQuery execSQL query none).2 = [query ++ " LIMIT 100"] := by
  unfold executeSQLQuery limitedQueryOf
  have h1 : toString (safeLimit none) = "100" := rfl
  have h2 : query ++ " LIMIT " ++ toString (safeLimit none) = query ++ " LIMIT 100" := by
    rw [h1, String.append_assoc]
    rfl
  simp [hsel, hlim, h2]
  cases execSQL (query ++ " LIMIT 100") with
  | error msg => rfl
  | ok rows => cases rows <;> rfl

/-- Witness for C4 at the spec's scenario input. -/
theorem C4_witness :
    jsStartsWith (jsToLower (jsTrim "SELECT * FROM contacts")) "select" = true ∧
    jsIncludes (jsToLower (jsTrim "SELECT * FROM contacts")) "limit" = false ∧
    (executeSQLQuery execEmpty "SELECT * FROM contacts" none).2
      = ["SELECT * FROM contacts LIMIT 100"] :=
  ⟨by decide, by decide,
    C4_default_injection execEmpty "SELECT * FROM contacts" (by decide) (by decide)⟩

/-- C5: for every accepted query on which the execution capability raises
with message `msg`, the tool catches the failure and returns the string
`"SQL Error: " ++ msg`, which begins with `"SQL Error:"` and contains the
underlying message; the model is a total function, so the fault never
propagates. -/
theorem C5_error_caught (execSQL : String → Except String (List Row))
    (query : String) (limit : Option Int) (msg : String)
    (hsel : jsStartsWith (jsToLower (jsTrim query)) "select" = true)
    (herr : execSQL (limitedQueryOf query limit) = Except.error msg) :
    (executeSQLQuery execSQL query limit).1 = ToolResult.text ("SQL Error: " ++ msg) ∧
    jsStartsWith ("SQL Error: " ++ msg) "SQL Error:" = true ∧
    jsIncludes ("SQL Error: " ++ msg) msg = true := by
  refine ⟨?_, sqlError_startsWith msg, sqlError_includes msg⟩
  unfold executeSQLQuery
  simp [hsel, herr]

/-- Witness for C5 at a concrete raising capability. -/
theorem C5_witness :
    jsStartsWith (jsToLower (jsTrim "select * from t")) "select" = true ∧
    ((executeSQLQuery execRaise "select * from t" none).1
        = ToolResult.text ("SQL Error: " ++ "near FROM: syntax error") ∧
      jsStartsWith ("SQL Error: " ++ "near FROM: syntax error") "SQL Error:" = true ∧
      jsIncludes ("SQL Error: " ++ "near FROM: syntax error") "near FROM: syntax error" = true) :=
  ⟨by decide,
    C5_error_caught execRaise "select * from t" none "near FROM: syntax error"
      (by decide) rfl⟩

/-- C6: for every accepted query whose execution returns an empty row
sequence, the result is the success object with `rowCount 0`, empty rows, the
executed query text, and the informational message. -/
theorem C6_empty_result (execSQL : String → Except String (List Row))
    (query : String) (limit : Option Int)
    (hsel : jsStartsWith (jsToLower (jsTrim query)) "select" = true)
    (hrows : execSQL (limitedQueryOf query limit) = Except.ok []) :
    (executeSQLQuery execSQL query limit).1 = ToolResult.json
      { rowCount := 0
        rows := []
        query := limitedQueryOf query limit
        message := some noResultsMessage } := by
  unfold executeSQLQuery
  simp [hsel, hrows]

/-- Witness for C6 at a concrete zero-row capability. -/
theorem C6_witness :
    jsStartsWith (jsToLower (jsTrim "select * from t")) "select" = true ∧
    (executeSQLQuery execEmpty "select * from t" none).1 = ToolResult.json
      { rowCount := 0
        rows := []
        query := limitedQueryOf "select * from t" none
        message := some noResultsMessage } :=
  ⟨by decide, C6_empty_result execEmpty "select * from t" none (by decide) rfl⟩

/-- C7: for every accepted query whose execution returns a non-empty row
sequence, the result has `rowCount` equal to the sequence's length, `rows`
equal to the sequence itself in order, and `query` equal to the executed
text. -/
theorem C7_nonempty_result (execSQL : String → Except String (List Row))
    (query : String) (limit : Option Int) (rows : List Row)
    (hsel : jsStartsWith (jsToLower (jsTrim query)) "select" = true)
    (hrows : execSQL (limitedQueryOf query limit) = Except.ok rows)
    (hne : rows ≠ []) :
    (executeSQLQuery execSQL query limit).1 = ToolResult.json
      { rowCount := rows.length
        rows := rows
        query := limitedQueryOf query limit
        message := none } := by
  unfold executeSQLQuery
  simp [hsel, hrows, List.length_eq_zero, hne]

/-- Witness for C7 at a concrete one-row capability. -/
theorem C7_witness :
    jsStartsWith (jsToLower (jsTrim "select * from contacts")) "select" = true ∧
    (executeSQLQuery execOneRow "select * from contacts" none).1 = ToolResult.json
      { rowCount := 1
        rows := [[("name", "contacts"), ("sql", "CREATE TABLE contacts (id INTEGER)")]]
        query := limitedQueryOf "select * from contacts" none
        message := none } :=
  ⟨by decide,
    C7_nonempty_result execOneRow "select * from contacts" none
      [[("name", "contacts"), ("sql", "CREATE TABLE contacts (id INTEGER)")]]
      (by decide) rfl (by decide)⟩

/-- C8: for every accepted query, the capability is handed exactly one text,
which is either the original input unchanged or the original input extended
by an appended LIMIT suffix — lowercasing and trimming touch only the
inspection copy. -/
theorem C8_original_preserved (execSQL : String → Except String (List Row))
    (query : String) (limit : Option Int)
    (hsel : jsStartsWith (jsToLower (jsTrim query)) "select" = true) :
    (executeSQLQuery execSQL query limit).2 = [limitedQueryOf query limit] ∧
    (limitedQueryOf query limit = query ∨
      limitedQueryOf query limit = query ++ " LIMIT " ++ toString (safeLimit limit)) := by
  constructor
  · unfold executeSQLQuery
    simp [hsel]
    cases execSQL (limitedQueryOf query limit) with
    | error msg => rfl
    | ok rows => cases rows <;> rfl
  · unfold limitedQueryOf
    by_cases h : jsIncludes (jsToLower (jsTrim query)) "limit" = true
    · simp [h]
    · simp [h]

/-- Witness for C8 at a concrete accepted query. -/
theorem C8_witness :
    jsStartsWith (jsToLower (jsTrim "SELECT id FROM contacts")) "select" = true ∧
    ((executeSQLQuery execEmpty "SELECT id FROM contacts" (some 50)).2
        = [limitedQueryOf "SELECT id FROM contacts" (some 50)] ∧
      (limitedQueryOf "SELECT id FROM contacts" (some 50) = "SELECT id FROM contacts" ∨
        limitedQueryOf "SELECT id FROM contacts" (some 50)
          = "SELECT id FROM contacts" ++ " LIMIT " ++ toString (safeLimit (some 50)))) :=
  ⟨by decide, C8_original_preserved execEmpty "SELECT id FROM contacts" (some 50) (by decide)⟩

/-- C9 counterexample: the claim fails on the code.  Against a zero-table
database the introspection query returns zero rows, and `getDatabaseSchema`
returns the plain string `"No tables found in database."` (tools.ts
lines 133-135) — no `tableCount` field and no `tables` list are reported, so
it does not report `tableCount` equal to the number of returned rows (here
0). -/
theorem C9_counterexample :
    (getDatabaseSchema execEmpty).1 = ToolResult.text noTablesMessage ∧
    (getDatabaseSchema execEmpty).1 ≠ ToolResult.json
      { database := "SQLite (Cloudflare Durable Object)"
        tableCount := 0
        tables := [] } := by decide

/-- C9 (amended): `getDatabaseSchema` always issues exactly the fixed
introspection query; when that query returns a non-empty row sequence it
reshapes each row into `{table := name, createStatement := sql}` preserving
order, with `tableCount` equal to the number of rows; when it returns zero
rows it instead returns the plain string `"No tables found in database."`;
and it is idempotent: any re-run against a capability answering the fixed
query identically yields the identical result. -/
theorem C9_schema_introspection (execSQL : String → Except String (List Row)) :
    (getDatabaseSchema execSQL).2 = [schemaQuery] ∧
    (∀ rows : List Row, execSQL schemaQuery = Except.ok rows → rows ≠ [] →
      (getDatabaseSchema execSQL).1 = ToolResult.json
        { database := "SQLite (Cloudflare Durable Object)"
          tableCount := rows.length
          tables := rows.map (fun t =>
            { table := rowGet t "name"
              createStatement := rowGet t "sql" }) }) ∧
    (execSQL schemaQuery = Except.ok [] →
      (getDatabaseSchema execSQL).1 = ToolResult.text noTablesMessage) ∧
    (∀ execSQL2 : String → Except String (List Row),
      execSQL2 schemaQuery = execSQL schemaQuery →
      getDatabaseSchema execSQL2 = getDatabaseSchema execSQL) := by
  refine ⟨?_, ?_, ?_, ?_⟩
  · unfold getDatabaseSchema
    cases execSQL schemaQuery with
    | error msg => rfl
    | ok rows => by_cases h : rows.length = 0 <;> simp [h]
  · intro rows h hne
    unfold getDatabaseSchema
    simp [h, List.length_eq_zero, hne]
  · intro h
    unfold getDatabaseSchema
    simp [h]
  · intro execSQL2 h2
    unfold getDatabaseSchema
    rw [h2]

/-- Witness for C9 at a concrete one-table capability and at the concrete
zero-table capability. -/
theorem C9_witness :
    (getDatabaseSchema execOneRow).2 = [schemaQuery] ∧
    (getDatabaseSchema execOneRow).1 = ToolResult.json
      { database := "SQLite (Cloudflare Durable Object)"
        tableCount := 1
        tables := [{ table := some "contacts"
                     createStatement := some "CREATE TABLE contacts (id INTEGER)" }] } ∧
    (getDatabaseSchema execEmpty).1 = ToolResult.text noTablesMessage :=
  ⟨(C9_schema_introspection execOneRow).1,
    (C9_schema_introspection execOneRow).2.1
      [[("name", "contacts"), ("sql", "CREATE TABLE contacts (id INTEGER)")]]
      rfl (by decide),
    (C9_schema_introspection execEmpty).2.2.1 rfl⟩

/-- C10: the authorization check is purely prefix-based: the input
`"selections ARE NOT sql"` is not a SELECT statement, yet its trimmed,
lowercased text begins with the six characters `select`, so the guard
accepts it and forwards it (with the default LIMIT appended) to the
execution capability instead of rejecting it. -/
theorem C10_prefix_bypass :
    jsStartsWith (jsToLower (jsTrim "selections ARE NOT sql")) "select" = true ∧
    (executeSQLQuery execEmpty "selections ARE NOT sql" none).2
      = ["selections ARE NOT sql LIMIT 100"] ∧
    (executeSQLQuery execEmpty "selections ARE NOT sql" none).1
      ≠ ToolResult.text rejectionMessage := by decide
